import Mathlib

set_option linter.unusedSectionVars false
set_option linter.unusedVariables false

/-!
Formal model of the `world-water-levels-visuals` repository.

The JavaScript sources are shallowly embedded in Lean:
* `src/simulation.js` — Monte Carlo sea-level-rise engine (`sampleNormal`,
  `singleIteration`, `runSimulation`, `computeStats`);
* `src/projections.js` — scenario/year → temperature resolver;
* `src/floodVisualization.js` — snapshot state machine and the flood shader;
* `src/geoid.js` — EGM96 undulation texture encoding.

JavaScript numbers are modelled as elements of a linear ordered field `K`
(instantiated at `ℚ` or `ℝ`), i.e. exact arithmetic in place of IEEE doubles.
`Math.random()` is modelled as an oracle stream `ℕ → K` together with an index
counting how many draws have been consumed.  The transcendental functions
`Math.sqrt`, `Math.log`, `Math.cos`, `Math.pow` and the constant `Math.PI`
are grouped into a `JsMath` record; theorems that need their actual values
instantiate the record with the corresponding real functions.
-/

namespace WaterLevels

/-- The subset of the JavaScript `Math` object used by `simulation.js` that has
no exact rational meaning.  (`Math.max`, `Math.floor`, `Math.round` are exact
and are modelled directly by order/floor operations.) -/
structure JsMath (K : Type) where
  sqrt : K → K
  log : K → K
  cos : K → K
  pow : K → K → K
  pi : K

/-- Result record of `computeStats` in `src/simulation.js`. -/
structure StatSummary (K : Type) where
  mean : K
  median : K
  p5 : K
  p95 : K
  min : K
  max : K
deriving DecidableEq

/-- One entry of the `CONTRIBUTORS` table in `src/simulation.js`. -/
structure Contributor (K : Type) where
  name : String
  meanPerDeg : K
  stdPerDeg : K
  nonLinearExponent : K
deriving DecidableEq

variable {K : Type} [LinearOrderedField K] [FloorRing K]

/-- The `CONTRIBUTORS` table of `src/simulation.js`, in object-insertion order
(`Object.entries` iterates string keys in insertion order). -/
def CONTRIBUTORS (K : Type) [LinearOrderedField K] : List (String × Contributor K) :=
  [("thermalExpansion", ⟨"Thermal Expansion", 0.12, 0.04, 1.0⟩),
   ("glaciers", ⟨"Mountain Glaciers", 0.10, 0.03, 0.9⟩),
   ("greenland", ⟨"Greenland Ice Sheet", 0.06, 0.04, 1.4⟩),
   ("antarctic", ⟨"Antarctic Ice Sheet", 0.05, 0.08, 1.8⟩),
   ("landWater", ⟨"Land Water Storage", 0.01, 0.01, 1.0⟩)]

/-- `clampPositive` of `src/simulation.js`: `Math.max(0, val)`. -/
def clampPositive (val : K) : K := Max.max 0 val

/-- `sampleNormal` of `src/simulation.js` (Box–Muller).  `rand` is the
`Math.random()` oracle stream and `idx` the index of the next unconsumed draw;
the returned index records that two draws were consumed. -/
def sampleNormal (M : JsMath K) (mean stdDev : K) (rand : ℕ → K) (idx : ℕ) : K × ℕ :=
  let u1 := rand idx
  let u2 := rand (idx + 1)
  let z := M.sqrt (-2 * M.log u1) * M.cos (2 * M.pi * u2)
  (mean + z * stdDev, idx + 2)

/-- `singleIteration` of `src/simulation.js`: one Monte Carlo iteration.
Returns `((total, breakdown), idx')` where `breakdown` is the per-contributor
association list in `CONTRIBUTORS` order (JS object insertion order). -/
def singleIteration (M : JsMath K) (tempIncrease : K) (rand : ℕ → K) (idx : ℕ) :
    (K × List (String × K)) × ℕ :=
  (CONTRIBUTORS K).foldl
    (fun acc entry =>
      let scaledTemp := M.pow tempIncrease entry.2.nonLinearExponent
      let mean := entry.2.meanPerDeg * scaledTemp
      let std := entry.2.stdPerDeg * M.sqrt tempIncrease
      let drawn := sampleNormal M mean std rand acc.2
      let value := clampPositive drawn.1
      ((acc.1.1 + value, acc.1.2 ++ [(entry.1, value)]), drawn.2))
    ((0, []), idx)

/-- `computeStats` of `src/simulation.js`.  `sorted.reduce((a, b) => a + b, 0)`
becomes a left fold; `sorted[Math.floor(n * p)]` becomes `List.getD` at the
floor index (the default `0` is only reachable for the empty list, where the
JS code would read `undefined`). -/
def computeStats (sorted : List K) : StatSummary K :=
  let n := sorted.length
  let sum := sorted.foldl (· + ·) 0
  { mean := sum / (n : K)
    median := sorted.getD (⌊(n : K) * 0.5⌋).toNat 0
    p5 := sorted.getD (⌊(n : K) * 0.05⌋).toNat 0
    p95 := sorted.getD (⌊(n : K) * 0.95⌋).toNat 0
    min := sorted.getD 0 0
    max := sorted.getD (n - 1) 0 }

/-- Ascending numeric sort, modelling `array.sort((a, b) => a - b)`.  The JS
engine's sorting algorithm is unspecified; on numbers the comparator induces
the total order `≤`, so any sort computing the ascending reordering is an
exact model.  We use insertion sort for its convenient reduction behaviour. -/
def jsSortAsc (l : List K) : List K := l.insertionSort (· ≤ ·)

/-- The per-contributor entry stored in `contributorStats`:
`{ name, ...computeStats(sorted) }`. -/
structure ContributorStat (K : Type) where
  name : String
  stats : StatSummary K
deriving DecidableEq

/-- Result record of `runSimulation` in `src/simulation.js`.  The extra `ℕ`
component returned alongside it by `runSimulation` below counts the number of
`Math.random()` draws consumed. -/
structure SimulationResult (K : Type) where
  tempIncrease : K
  iterations : ℕ
  results : List K
  stats : StatSummary K
  contributorStats : List (String × ContributorStat K)
deriving DecidableEq

/-- Appending a value to the entry of `ct` with the given key, modelling
`contributorTotals[key].push(value)`. -/
def pushValue (ct : List (String × List K)) (key : String) (value : K) :
    List (String × List K) :=
  ct.map fun p => if p.1 = key then (p.1, p.2 ++ [value]) else p

/-- The main `for (let i = 0; i < iterations; i++)` loop of `runSimulation`:
returns `(results, contributorTotals, idx)` after `n` iterations, starting from
empty accumulators and draw index `0`. -/
def simulationLoop (M : JsMath K) (tempIncrease : K) (rand : ℕ → K) :
    ℕ → List K × List (String × List K) × ℕ
  | 0 => ([], (CONTRIBUTORS K).map (fun p => (p.1, [])), 0)
  | n + 1 =>
    let prev := simulationLoop M tempIncrease rand n
    let step := singleIteration M tempIncrease rand prev.2.2
    (prev.1 ++ [step.1.1],
     step.1.2.foldl (fun ct kv => pushValue ct kv.1 kv.2) prev.2.1,
     step.2)

/-- Name lookup `CONTRIBUTORS[key].name` (always succeeds for the five keys). -/
def contributorName (K : Type) [LinearOrderedField K] (key : String) : String :=
  (((CONTRIBUTORS K).find? fun p => p.1 == key).map fun p => p.2.name).getD ""

/-- The all-zero `stats` record returned by `runSimulation` for
`tempIncrease <= 0`. -/
def zeroStats : StatSummary K := ⟨0, 0, 0, 0, 0, 0⟩

/-- `runSimulation` of `src/simulation.js`.  Returns the result record paired
with the number of `Math.random()` draws consumed.  Note the source takes no
seed parameter: the only source of randomness is the `rand` oracle stream
(`Math.random()`), and the zero-temperature branch returns
`contributorStats: {}` (the empty mapping). -/
def runSimulation (M : JsMath K) (tempIncrease : K) (iterations : ℕ) (rand : ℕ → K) :
    SimulationResult K × ℕ :=
  if tempIncrease ≤ 0 then
    (⟨0, 0, [], zeroStats, []⟩, 0)
  else
    let loop := simulationLoop M tempIncrease rand iterations
    let results := jsSortAsc loop.1
    let stats := computeStats results
    let contributorStats := loop.2.1.map fun p =>
      (p.1, ContributorStat.mk (contributorName K p.1) (computeStats (jsSortAsc p.2)))
    (⟨tempIncrease, iterations, results, stats, contributorStats⟩, loop.2.2)

/-! ### `src/projections.js` -/

/-- One entry of `SCENARIO_DATA` in `src/projections.js`.  The
`temperaturesByYear` object is modelled as an association list in key order. -/
structure Scenario where
  id : String
  label : String
  description : String
  temperaturesByYear : List (ℚ × ℚ)
deriving DecidableEq

/-- The `ssp126` scenario of `SCENARIO_DATA`. -/
def ssp126 : Scenario :=
  ⟨"ssp126", "SSP1-2.6", "Strong mitigation, lower warming pathway",
   [(2030, 1.5), (2050, 1.8), (2100, 2.0)]⟩

/-- The `ssp245` scenario of `SCENARIO_DATA`. -/
def ssp245 : Scenario :=
  ⟨"ssp245", "SSP2-4.5", "Intermediate emissions pathway",
   [(2030, 1.6), (2050, 2.2), (2100, 2.9)]⟩

/-- The `ssp585` scenario of `SCENARIO_DATA`. -/
def ssp585 : Scenario :=
  ⟨"ssp585", "SSP5-8.5", "High emissions, high warming pathway",
   [(2030, 1.8), (2050, 2.7), (2100, 4.4)]⟩

/-- `SCENARIO_DATA` of `src/projections.js`. -/
def SCENARIO_DATA : List Scenario := [ssp126, ssp245, ssp585]

/-- The property keys of `Object.prototype` in a standard JS host (ECMA-262
§20.1.3 plus the Annex B.2.2 legacy accessors and `__proto__`).  A plain
object literal such as `SCENARIO_DATA` inherits all of them through its
prototype chain, and every one of them is bound to a truthy value — a
built-in function, or `Object.prototype` itself for `__proto__`. -/
def OBJECT_PROTOTYPE_KEYS : List String :=
  ["constructor", "hasOwnProperty", "isPrototypeOf", "propertyIsEnumerable",
   "toLocaleString", "toString", "valueOf", "__proto__", "__defineGetter__",
   "__defineSetter__", "__lookupGetter__", "__lookupSetter__"]

/-- The value of the JS expression `SCENARIO_DATA[id] || null`:
a registered scenario (an own data property of the object literal), a truthy
method inherited from `Object.prototype` (which `|| null` passes through
unchanged), or `null` when the property is absent (`undefined || null`). -/
inductive ScenarioLookup where
  | found (s : Scenario)
  | inherited
  | jsNull
deriving DecidableEq

/-- `getScenarioById` of `src/projections.js`: `SCENARIO_DATA[id] || null`.
The property read walks the prototype chain: one of the three own keys yields
its scenario; a key of `Object.prototype` (such as `"toString"`) yields the
inherited truthy method; any other id reads `undefined`, which `|| null`
turns into `null`. -/
def getScenarioById (id : String) : ScenarioLookup :=
  match SCENARIO_DATA.find? (fun s => s.id == id) with
  | some s => ScenarioLookup.found s
  | none =>
    if id ∈ OBJECT_PROTOTYPE_KEYS then ScenarioLookup.inherited
    else ScenarioLookup.jsNull

/-- Property read `scenario.temperaturesByYear[year]` (`!= null` check). -/
def lookupTemp (table : List (ℚ × ℚ)) (year : ℚ) : Option ℚ :=
  match table with
  | [] => none
  | (y, t) :: rest => if year = y then some t else lookupTemp rest year

/-- The linear-interpolation loop of `getProjectedTemp`: walk consecutive pairs
of the sorted year list; on the first window `y0 ≤ year ≤ y1` return
`t0 + (t1 - t0) * alpha`.  The inner temperature lookups always succeed because
the years are the table's own keys; a missing key would be JS `undefined`,
modelled as `none`. -/
def interpSearch (table : List (ℚ × ℚ)) (year : ℚ) : List ℚ → Option ℚ
  | y0 :: y1 :: rest =>
    if y0 ≤ year ∧ year ≤ y1 then
      match lookupTemp table y0, lookupTemp table y1 with
      | some t0, some t1 => some (t0 + (t1 - t0) * ((year - y0) / (y1 - y0)))
      | _, _ => none
    else interpSearch table year (y1 :: rest)
  | _ => none

/-- Line 67–69 of `src/projections.js`: the scenario's configured years,
sorted ascending (`Object.keys(...).map(Number).sort((a, b) => a - b)`). -/
def sortedYears (scenario : Scenario) : List ℚ :=
  (scenario.temperaturesByYear.map Prod.fst).insertionSort (· ≤ ·)

/-- Lines 75–91 of `src/projections.js`: clamp outside the known year range,
otherwise linearly interpolate between the nearest anchors; the trailing
`return temperaturesByYear[years[0]]` is the final fallback.  The `getD 0`
defaults and the empty-years `Except.error "undefined"` stand for the JS
`undefined` on lookups that cannot occur for registered scenarios. -/
def clampOrInterp (scenario : Scenario) (year : ℚ) (years : List ℚ) : Except String ℚ :=
  match years, years.getLast? with
  | y0 :: _, some ylast =>
    if year ≤ y0 then
      Except.ok ((lookupTemp scenario.temperaturesByYear y0).getD 0)
    else if year ≥ ylast then
      Except.ok ((lookupTemp scenario.temperaturesByYear ylast).getD 0)
    else
      match interpSearch scenario.temperaturesByYear year years with
      | some t => Except.ok t
      | none => Except.ok ((lookupTemp scenario.temperaturesByYear y0).getD 0)
  | _, _ => Except.error "undefined"

/-- `getProjectedTemp` of `src/projections.js`.  A thrown `Error` is modelled
as `Except.error` carrying the message.  When the id hits an inherited
`Object.prototype` key, the `if (!scenario)` guard passes (the inherited
method is truthy) and the very next line,
`Object.keys(scenario.temperaturesByYear)`, throws a `TypeError` because
`temperaturesByYear` is `undefined` on a built-in method; the host-specific
message of that exception is abbreviated to `"TypeError"`. -/
def getProjectedTemp (scenarioId : String) (year : ℚ) : Except String ℚ :=
  match getScenarioById scenarioId with
  | ScenarioLookup.jsNull => Except.error ("Unknown scenario id: " ++ scenarioId)
  | ScenarioLookup.inherited => Except.error "TypeError"
  | ScenarioLookup.found scenario =>
    match lookupTemp scenario.temperaturesByYear year with
    | some t => Except.ok t
    | none => clampOrInterp scenario year (sortedYears scenario)

/-- Anchor temperature of a scenario at a configured year (`getD 0` is only the
unreachable missing-key default). -/
def anchorTemp (s : Scenario) (y : ℚ) : ℚ :=
  (lookupTemp s.temperaturesByYear y).getD 0

/-! ### `src/floodVisualization.js` — snapshot state -/

/-- A flood snapshot as built by `setFloodLevel`:
`{ seaLevelRise, simulationResult, timestamp: Date.now() }`. -/
structure Snapshot where
  seaLevelRise : ℚ
  simulationResult : SimulationResult ℚ
  timestamp : ℕ
deriving DecidableEq

/-- The module-level snapshot variables of `src/floodVisualization.js`
(`previousSnapshot`, `currentSnapshot`); both start as `null`. -/
structure VizState where
  previousSnapshot : Option Snapshot
  currentSnapshot : Option Snapshot
deriving DecidableEq

/-- The initial module state: both snapshot variables are `null`. -/
def initialVizState : VizState := ⟨none, none⟩

/-- Snapshot effect of `clearFlood`:
`previousSnapshot = currentSnapshot ? {...currentSnapshot} : null;`
`currentSnapshot = null;` (the material/alpha bookkeeping has no effect on the
snapshot slots and is not modelled). -/
def clearFlood (s : VizState) : VizState :=
  { previousSnapshot :=
      match s.currentSnapshot with
      | some c => some c
      | none => none
    currentSnapshot := none }

/-- Snapshot effect of `setFloodLevel(viewer, seaLevelRise, simulationResult,
recordSnapshot)`: when recording, the old current snapshot — if one exists —
is copied into `previousSnapshot`, and a fresh snapshot becomes current; then
`seaLevelRise <= 0` falls through to `clearFlood`.  `now` stands for
`Date.now()`. -/
def setFloodLevel (seaLevelRise : ℚ) (simulationResult : SimulationResult ℚ)
    (recordSnapshot : Bool) (now : ℕ) (s : VizState) : VizState :=
  let s1 :=
    if recordSnapshot then
      { previousSnapshot :=
          match s.currentSnapshot with
          | some c => some c
          | none => s.previousSnapshot
        currentSnapshot := some ⟨seaLevelRise, simulationResult, now⟩ }
    else s
  if seaLevelRise ≤ 0 then clearFlood s1 else s1

/-! ### `src/floodVisualization.js` — the geoid flood shader -/

/-- The `czm_material` fields the shader writes: `diffuse` (rgb) and `alpha`. -/
structure CzmMaterial where
  diffuse : ℚ × ℚ × ℚ
  alpha : ℚ
deriving DecidableEq

/-- GLSL `smoothstep(e0, e1, x)`: clamp the normalized position to `[0,1]` and
apply the cubic `t²(3−2t)`. -/
def smoothstep (e0 e1 x : ℚ) : ℚ :=
  let t := Min.min (Max.max ((x - e0) / (e1 - e0)) 0) 1
  t * t * (3 - 2 * t)

/-- Lines 49–51 of the geoid shader: sample the geoid texture at `(u, v)`
(`tex` returns the red/green channels of the texel, each in `[0,1]`), decode
the 2-channel 16-bit value, and rescale to meters. -/
def shaderUndulation (geoidMin geoidRange : ℚ) (tex : ℚ × ℚ → ℚ × ℚ)
    (stx sty : ℚ) : ℚ :=
  let sample := tex (stx, sty)
  let encoded := sample.1 * (255 * 256 / 65535) + sample.2 * (255 / 65535)
  encoded * geoidRange + geoidMin

/-- The body of `czm_getMaterial` in `FLOOD_SHADER_GEOID`, as a pure function
of the uniforms (`seaLevelRise`, `comparisonSLR`, `waterAlpha`, `geoidMin`,
`geoidRange`, the geoid texture) and the per-fragment inputs (`waterMask`,
terrain height `h`, texture coordinates).  `defaultDiffuse` is the diffuse
color of `czm_getDefaultMaterial`, which the shader leaves untouched unless it
writes one of its own colors. -/
def floodShaderGeoid (seaLevelRise comparisonSLR waterAlpha geoidMin geoidRange : ℚ)
    (tex : ℚ × ℚ → ℚ × ℚ) (defaultDiffuse : ℚ × ℚ × ℚ)
    (waterMask h stx sty : ℚ) : CzmMaterial :=
  let material : CzmMaterial := ⟨defaultDiffuse, 0⟩
  if waterMask > 0.5 then material
  else
    let geoidUndulation := shaderUndulation geoidMin geoidRange tex stx sty
    let floodSurface := geoidUndulation + seaLevelRise
    let edgeSoftness : ℚ := 0.35
    let floodMask :=
      if seaLevelRise > 0 then
        1 - smoothstep (floodSurface - edgeSoftness) (floodSurface + edgeSoftness) h
      else 0
    let material :=
      if floodMask > 0.001 then ⟨(1, 0.65, 0), waterAlpha * floodMask⟩ else material
    if comparisonSLR > 0 then
      let compSurface := geoidUndulation + comparisonSLR
      let lower := Min.min floodSurface compSurface
      let upper := Max.max floodSurface compSurface
      if h ≥ lower ∧ h < upper then ⟨(1, 0.3, 0.1), 0.5⟩ else material
    else material

/-! ### `src/geoid.js` — EGM96 texture encoding -/

/-- `GEOID_MIN` of `src/geoid.js` (`-107.0`, an integral value). -/
def GEOID_MIN : ℚ := -107

/-- `GEOID_MAX` of `src/geoid.js` (`86.0`). -/
def GEOID_MAX : ℚ := 86

/-- `GEOID_RANGE = GEOID_MAX - GEOID_MIN` (193). -/
def GEOID_RANGE : ℚ := GEOID_MAX - GEOID_MIN

/-- JavaScript `Math.round`: round half toward positive infinity. -/
def jsRound (x : ℚ) : ℤ := ⌊x + 1 / 2⌋

/-- The per-texel encoding step of `loadGeoidTexture` (lines 68–79): normalize
the undulation to `[0,1]`, clamp, scale to 16 bits, and split into the high
byte (R channel) and low byte (G channel).  `Int.toNat` is exact because the
rounded value of a clamped non-negative quantity is non-negative. -/
def encodeGeoid (valueM : ℚ) : ℕ × ℕ :=
  let normalized := (valueM - GEOID_MIN) / GEOID_RANGE
  let clamped := Max.max 0 (Min.min 1 normalized)
  let encoded := (jsRound (clamped * 65535)).toNat
  ((encoded >>> 8) &&& 0xff, encoded &&& 0xff)

/-- Decoding of a geoid texel on the shader side: sampling an 8-bit texture
yields `channel / 255` per channel, which lines 50–51 of the shader recombine
and rescale (`encoded * geoidRange + geoidMin`, with the uniforms bound to
`GEOID_MIN` and `GEOID_RANGE`). -/
def decodeGeoidTexel (hi lo : ℕ) : ℚ :=
  let r : ℚ := (hi : ℚ) / 255
  let g : ℚ := (lo : ℚ) / 255
  let encoded := r * (255 * 256 / 65535) + g * (255 / 65535)
  encoded * GEOID_RANGE + GEOID_MIN

/-! ### Auxiliary objects used by the theorems -/

/-- The ordering property claimed for every produced `StatSummary`:
`min ≤ p5 ≤ median ≤ p95 ≤ max`. -/
def statChain (s : StatSummary K) : Prop :=
  s.min ≤ s.p5 ∧ s.p5 ≤ s.median ∧ s.median ≤ s.p95 ∧ s.p95 ≤ s.max

instance (s : StatSummary K) : Decidable (statChain s) :=
  inferInstanceAs (Decidable (_ ∧ _ ∧ _ ∧ _))

/-- The value drawn for one contributor inside `singleIteration`, starting at
draw index `idx`:
`clampPositive(mean + z·std)` with `mean = meanPerDeg * pow(T, exponent)`,
`std = stdPerDeg * sqrt(T)` and Box–Muller
`z = sqrt(-2 ln u1) cos(2π u2)` on the draws `u1 = rand idx`,
`u2 = rand (idx+1)`.  This is the closed form of one step of the
`singleIteration` fold, named so the unrolled loop can be stated readably. -/
def contributorDraw (M : JsMath K) (tempIncrease : K) (c : Contributor K)
    (rand : ℕ → K) (idx : ℕ) : K :=
  clampPositive (c.meanPerDeg * M.pow tempIncrease c.nonLinearExponent +
    M.sqrt (-2 * M.log (rand idx)) * M.cos (2 * M.pi * rand (idx + 1)) *
      (c.stdPerDeg * M.sqrt tempIncrease))

/-- A trivial rational instantiation of the `Math` record, used to evaluate
closed instances of the simulation (the claims settled with it do not depend
on the values of the transcendental functions). -/
def qOracle : JsMath ℚ := ⟨fun _ => 0, fun _ => 0, fun _ => 0, fun _ _ => 0, 0⟩

/-- The real-valued `Math` record: `Math.sqrt`, `Math.log`, `Math.cos`,
`Math.pow`, `Math.PI` with their mathematical meanings. -/
noncomputable def realMath : JsMath ℝ :=
  ⟨Real.sqrt, Real.log, Real.cos, fun x y => x ^ y, Real.pi⟩

/-- A `Math.random()` oracle stream: `1/2, 1/4, 1/2, 1/4, …` (all values in
`[0,1)`, hence producible by `Math.random()`). -/
noncomputable def streamA : ℕ → ℝ := fun n => if n % 2 = 0 then 1 / 2 else 1 / 4

/-- A second `Math.random()` oracle stream: `e⁻⁸, 1/2, e⁻⁸, 1/2, …` (all
values in `[0,1)`). -/
noncomputable def streamB : ℕ → ℝ := fun n => if n % 2 = 0 then Real.exp (-8) else 1 / 2

/-! ## Theorems -/

/-- Floor indices of the form `Math.floor(n * (a/b))` are the natural-number
division `n * a / b`. -/
theorem toNat_floor_mul_div (n a b : ℕ) :
    (⌊(n : K) * ((a : K) / (b : K))⌋).toNat = n * a / b := by
  rw [Int.floor_toNat, mul_div_assoc',
    show ((n : K) * (a : K)) = ((n * a : ℕ) : K) by push_cast; ring,
    Nat.floor_div_nat, Nat.floor_natCast]

/-- The median index `Math.floor(n * 0.5)`. -/
theorem medianIdx (n : ℕ) : (⌊(n : K) * 0.5⌋).toNat = n / 2 := by
  rw [show (0.5 : K) = ((1 : ℕ) : K) / ((2 : ℕ) : K) by push_cast; norm_num,
    toNat_floor_mul_div]
  omega

/-- The p5 index `Math.floor(n * 0.05)`. -/
theorem p5Idx (n : ℕ) : (⌊(n : K) * 0.05⌋).toNat = n * 5 / 100 := by
  rw [show (0.05 : K) = ((5 : ℕ) : K) / ((100 : ℕ) : K) by push_cast; norm_num,
    toNat_floor_mul_div]

/-- The p95 index `Math.floor(n * 0.95)`. -/
theorem p95Idx (n : ℕ) : (⌊(n : K) * 0.95⌋).toNat = n * 95 / 100 := by
  rw [show (0.95 : K) = ((95 : ℕ) : K) / ((100 : ℕ) : K) by push_cast; norm_num,
    toNat_floor_mul_div]

/-- C3: for a non-empty (sorted) sample of length `n`, `computeStats` uses
nearest-rank indexing with no interpolation: `median = sorted[⌊n·0.5⌋]`,
`p5 = sorted[⌊n·0.05⌋]`, `p95 = sorted[⌊n·0.95⌋]`, `mean = sum/n`, and
`min`/`max` are the first and last elements. -/
theorem computeStats_nearest_rank (l : List ℚ) (h : l ≠ []) :
    (computeStats l).median = l.getD (l.length / 2) 0 ∧
    (computeStats l).p5 = l.getD (l.length * 5 / 100) 0 ∧
    (computeStats l).p95 = l.getD (l.length * 95 / 100) 0 ∧
    (computeStats l).mean = l.sum / (l.length : ℚ) ∧
    (computeStats l).min = l.head h ∧
    (computeStats l).max = l.getLast h := by
  have hn : 0 < l.length := List.length_pos.mpr h
  refine ⟨?_, ?_, ?_, ?_, ?_, ?_⟩
  · simp only [computeStats, medianIdx]
  · simp only [computeStats, p5Idx]
  · simp only [computeStats, p95Idx]
  · simp only [computeStats]
    rw [List.sum_eq_foldl]
  · simp only [computeStats]
    rw [List.getD_eq_getElem l 0 hn, List.head_eq_getElem_zero h]
  · simp only [computeStats]
    rw [List.getD_eq_getElem l 0 (show l.length - 1 < l.length by omega),
      List.getLast_eq_getElem]

/-- Witness for `computeStats_nearest_rank` at the sample `[1, 2, 3]`. -/
theorem computeStats_nearest_rank_witness :
    ([(1 : ℚ), 2, 3] ≠ []) ∧
    (computeStats [(1 : ℚ), 2, 3]).mean =
      [(1 : ℚ), 2, 3].sum / (([(1 : ℚ), 2, 3].length : ℕ) : ℚ) :=
  ⟨by decide, (computeStats_nearest_rank [(1 : ℚ), 2, 3] (by decide)).2.2.2.1⟩

/-! ### Scenario resolver -/

/-- Evaluation of the sorted year list for a three-anchor table. -/
theorem insertionSort_anchor_years :
    ([(2030 : ℚ), 2050, 2100].insertionSort (· ≤ ·)) = [2030, 2050, 2100] := by
  norm_num [List.insertionSort, List.orderedInsert]

/-- For a year distinct from all three anchors the direct table lookup
misses. -/
theorem lookupTemp_anchor_none (t30 t50 t100 year : ℚ) (h1 : year ≠ 2030)
    (h2 : year ≠ 2050) (h3 : year ≠ 2100) :
    lookupTemp [(2030, t30), (2050, t50), (2100, t100)] year = none := by
  simp only [lookupTemp, if_neg h1, if_neg h2, if_neg h3]

/-- On a non-anchor year, `getProjectedTemp` reduces to the clamp/interpolate
path over the sorted anchor years. -/
theorem getProjectedTemp_eq_clamp (sid lbl desc : String) (t30 t50 t100 : ℚ)
    (hs : getScenarioById sid =
      ScenarioLookup.found ⟨sid, lbl, desc, [(2030, t30), (2050, t50), (2100, t100)]⟩)
    (year : ℚ) (h1 : year ≠ 2030) (h2 : year ≠ 2050) (h3 : year ≠ 2100) :
    getProjectedTemp sid year =
      clampOrInterp ⟨sid, lbl, desc, [(2030, t30), (2050, t50), (2100, t100)]⟩ year
        [2030, 2050, 2100] := by
  have hnone := lookupTemp_anchor_none t30 t50 t100 year h1 h2 h3
  have hsy : sortedYears ⟨sid, lbl, desc, [(2030, t30), (2050, t50), (2100, t100)]⟩
      = [2030, 2050, 2100] := by
    simp only [sortedYears, List.map_cons, List.map_nil, insertionSort_anchor_years]
  simp only [getProjectedTemp, hs]
  rw [hnone, hsy]

/-- Behaviour of `getProjectedTemp` for any scenario registered with the
anchor years 2030/2050/2100 (all three scenarios have this shape): anchor
years are returned exactly, years outside the anchor range clamp, and years
strictly between consecutive anchors interpolate linearly. -/
theorem getProjectedTemp_three_anchors (sid lbl desc : String) (t30 t50 t100 : ℚ)
    (hs : getScenarioById sid =
      ScenarioLookup.found ⟨sid, lbl, desc, [(2030, t30), (2050, t50), (2100, t100)]⟩)
    (year : ℚ) :
    (∀ t, lookupTemp [(2030, t30), (2050, t50), (2100, t100)] year = some t →
        getProjectedTemp sid year = Except.ok t) ∧
    (year < 2030 → getProjectedTemp sid year = Except.ok t30) ∧
    (year > 2100 → getProjectedTemp sid year = Except.ok t100) ∧
    (2030 < year → year < 2050 →
        getProjectedTemp sid year =
          Except.ok (t30 + (t50 - t30) * (year - 2030) / (2050 - 2030))) ∧
    (2050 < year → year < 2100 →
        getProjectedTemp sid year =
          Except.ok (t50 + (t100 - t50) * (year - 2050) / (2100 - 2050))) := by
  have h30 : lookupTemp [(2030, t30), (2050, t50), (2100, t100)] 2030 = some t30 := by
    simp [lookupTemp]
  have h50 : lookupTemp [(2030, t30), (2050, t50), (2100, t100)] 2050 = some t50 := by
    norm_num [lookupTemp]
  have h100 : lookupTemp [(2030, t30), (2050, t50), (2100, t100)] 2100 = some t100 := by
    norm_num [lookupTemp]
  refine ⟨?_, ?_, ?_, ?_, ?_⟩
  · intro t ht
    simp only [getProjectedTemp, hs, ht]
  · intro hy
    rw [getProjectedTemp_eq_clamp sid lbl desc t30 t50 t100 hs year
      (by intro h; rw [h] at hy; linarith) (by intro h; rw [h] at hy; linarith)
      (by intro h; rw [h] at hy; linarith)]
    simp only [clampOrInterp]
    rw [show ([(2030 : ℚ), 2050, 2100].getLast?) = some 2100 from rfl]
    simp only []
    rw [if_pos (le_of_lt hy)]
    rw [h30]
    rfl
  · intro hy
    rw [getProjectedTemp_eq_clamp sid lbl desc t30 t50 t100 hs year
      (by intro h; rw [h] at hy; linarith) (by intro h; rw [h] at hy; linarith)
      (by intro h; rw [h] at hy; linarith)]
    simp only [clampOrInterp]
    rw [show ([(2030 : ℚ), 2050, 2100].getLast?) = some 2100 from rfl]
    simp only []
    rw [if_neg (by push_neg; linarith), if_pos (le_of_lt hy)]
    rw [h100]
    rfl
  · intro hy1 hy2
    rw [getProjectedTemp_eq_clamp sid lbl desc t30 t50 t100 hs year
      (by intro h; rw [h] at hy1; linarith) (by intro h; rw [h] at hy2; linarith)
      (by intro h; rw [h] at hy2; linarith)]
    simp only [clampOrInterp]
    rw [show ([(2030 : ℚ), 2050, 2100].getLast?) = some 2100 from rfl]
    simp only []
    rw [if_neg (by push_neg; linarith), if_neg (by push_neg; linarith)]
    simp only [interpSearch]
    rw [if_pos (And.intro (le_of_lt hy1) (le_of_lt hy2))]
    rw [h30, h50]
    simp only [Except.ok.injEq]
    ring
  · intro hy1 hy2
    rw [getProjectedTemp_eq_clamp sid lbl desc t30 t50 t100 hs year
      (by intro h; rw [h] at hy1; linarith) (by intro h; rw [h] at hy1; linarith)
      (by intro h; rw [h] at hy2; linarith)]
    simp only [clampOrInterp]
    rw [show ([(2030 : ℚ), 2050, 2100].getLast?) = some 2100 from rfl]
    simp only []
    rw [if_neg (by push_neg; linarith), if_neg (by push_neg; linarith)]
    simp only [interpSearch]
    rw [if_neg (by push_neg; intro h; linarith)]
    rw [if_pos (And.intro (le_of_lt hy1) (le_of_lt hy2))]
    rw [h50, h100]
    simp only [Except.ok.injEq]
    ring

/-- Evaluation of `getScenarioById` at `"ssp126"`. -/
theorem getScenarioById_ssp126 :
    getScenarioById "ssp126" = ScenarioLookup.found ⟨"ssp126", "SSP1-2.6",
      "Strong mitigation, lower warming pathway",
      [(2030, 1.5), (2050, 1.8), (2100, 2.0)]⟩ := by
  simp [getScenarioById, SCENARIO_DATA, ssp126, ssp245, ssp585, List.find?]

/-- Evaluation of `getScenarioById` at `"ssp245"`. -/
theorem getScenarioById_ssp245 :
    getScenarioById "ssp245" = ScenarioLookup.found ⟨"ssp245", "SSP2-4.5",
      "Intermediate emissions pathway",
      [(2030, 1.6), (2050, 2.2), (2100, 2.9)]⟩ := by
  simp [getScenarioById, SCENARIO_DATA, ssp126, ssp245, ssp585, List.find?]

/-- Evaluation of `getScenarioById` at `"ssp585"`. -/
theorem getScenarioById_ssp585 :
    getScenarioById "ssp585" = ScenarioLookup.found ⟨"ssp585", "SSP5-8.5",
      "High emissions, high warming pathway",
      [(2030, 1.8), (2050, 2.7), (2100, 4.4)]⟩ := by
  simp [getScenarioById, SCENARIO_DATA, ssp126, ssp245, ssp585, List.find?]

/-- C4: for every registered scenario, `getProjectedTemp` returns anchors
exactly, clamps outside the anchor range, and interpolates linearly strictly
between consecutive anchors; in particular the three reference values for
`ssp245`. -/
theorem getProjectedTemp_spec :
    (∀ s ∈ SCENARIO_DATA, ∀ year : ℚ,
      (∀ t, lookupTemp s.temperaturesByYear year = some t →
          getProjectedTemp s.id year = Except.ok t) ∧
      (year < 2030 → getProjectedTemp s.id year = Except.ok (anchorTemp s 2030)) ∧
      (year > 2100 → getProjectedTemp s.id year = Except.ok (anchorTemp s 2100)) ∧
      (2030 < year → year < 2050 →
          getProjectedTemp s.id year =
            Except.ok (anchorTemp s 2030 +
              (anchorTemp s 2050 - anchorTemp s 2030) * (year - 2030) / (2050 - 2030))) ∧
      (2050 < year → year < 2100 →
          getProjectedTemp s.id year =
            Except.ok (anchorTemp s 2050 +
              (anchorTemp s 2100 - anchorTemp s 2050) * (year - 2050) / (2100 - 2050)))) ∧
    getProjectedTemp "ssp245" 2050 = Except.ok 2.2 ∧
    getProjectedTemp "ssp245" 2040 = Except.ok 1.9 ∧
    getProjectedTemp "ssp245" 2200 = Except.ok 2.9 := by
  constructor
  · intro s hsmem year
    have hsmem' : s = ssp126 ∨ s = ssp245 ∨ s = ssp585 := by
      simpa [SCENARIO_DATA] using hsmem
    rcases hsmem' with rfl | rfl | rfl
    · have h := getProjectedTemp_three_anchors "ssp126" "SSP1-2.6"
        "Strong mitigation, lower warming pathway" 1.5 1.8 2.0 getScenarioById_ssp126 year
      have a30 : anchorTemp ssp126 2030 = 1.5 := by norm_num [anchorTemp, ssp126, lookupTemp]
      have a50 : anchorTemp ssp126 2050 = 1.8 := by norm_num [anchorTemp, ssp126, lookupTemp]
      have a100 : anchorTemp ssp126 2100 = 2.0 := by norm_num [anchorTemp, ssp126, lookupTemp]
      simp only [show ssp126.id = "ssp126" from rfl,
        show ssp126.temperaturesByYear = [(2030, 1.5), (2050, 1.8), (2100, 2.0)] from rfl,
        a30, a50, a100]
      exact h
    · have h := getProjectedTemp_three_anchors "ssp245" "SSP2-4.5"
        "Intermediate emissions pathway" 1.6 2.2 2.9 getScenarioById_ssp245 year
      have a30 : anchorTemp ssp245 2030 = 1.6 := by norm_num [anchorTemp, ssp245, lookupTemp]
      have a50 : anchorTemp ssp245 2050 = 2.2 := by norm_num [anchorTemp, ssp245, lookupTemp]
      have a100 : anchorTemp ssp245 2100 = 2.9 := by norm_num [anchorTemp, ssp245, lookupTemp]
      simp only [show ssp245.id = "ssp245" from rfl,
        show ssp245.temperaturesByYear = [(2030, 1.6), (2050, 2.2), (2100, 2.9)] from rfl,
        a30, a50, a100]
      exact h
    · have h := getProjectedTemp_three_anchors "ssp585" "SSP5-8.5"
        "High emissions, high warming pathway" 1.8 2.7 4.4 getScenarioById_ssp585 year
      have a30 : anchorTemp ssp585 2030 = 1.8 := by norm_num [anchorTemp, ssp585, lookupTemp]
      have a50 : anchorTemp ssp585 2050 = 2.7 := by norm_num [anchorTemp, ssp585, lookupTemp]
      have a100 : anchorTemp ssp585 2100 = 4.4 := by norm_num [anchorTemp, ssp585, lookupTemp]
      simp only [show ssp585.id = "ssp585" from rfl,
        show ssp585.temperaturesByYear = [(2030, 1.8), (2050, 2.7), (2100, 4.4)] from rfl,
        a30, a50, a100]
      exact h
  · refine ⟨?_, ?_, ?_⟩
    · exact (getProjectedTemp_three_anchors "ssp245" "SSP2-4.5"
        "Intermediate emissions pathway" 1.6 2.2 2.9 getScenarioById_ssp245 2050).1 2.2
        (by norm_num [lookupTemp])
    · have h := (getProjectedTemp_three_anchors "ssp245" "SSP2-4.5"
        "Intermediate emissions pathway" 1.6 2.2 2.9 getScenarioById_ssp245 2040).2.2.2.1
        (by norm_num) (by norm_num)
      rw [h]
      simp only [Except.ok.injEq]
      norm_num
    · exact (getProjectedTemp_three_anchors "ssp245" "SSP2-4.5"
        "Intermediate emissions pathway" 1.6 2.2 2.9 getScenarioById_ssp245 2200).2.2.1
        (by norm_num)

/-- Witness for `getProjectedTemp_spec`: the `ssp126` interpolation at 2040. -/
theorem getProjectedTemp_spec_witness :
    ssp126 ∈ SCENARIO_DATA ∧ (2030 : ℚ) < 2040 ∧ (2040 : ℚ) < 2050 ∧
    getProjectedTemp ssp126.id 2040 =
      Except.ok (anchorTemp ssp126 2030 +
        (anchorTemp ssp126 2050 - anchorTemp ssp126 2030) * (2040 - 2030) / (2050 - 2030)) :=
  ⟨List.mem_cons_self _ _, by norm_num, by norm_num,
   (getProjectedTemp_spec.1 ssp126 (List.mem_cons_self _ _) 2040).2.2.2.1
     (by norm_num) (by norm_num)⟩

/-- For a scenario registered with the three standard anchors,
`getProjectedTemp` never fails: every year resolves to some temperature. -/
theorem getProjectedTemp_total_three_anchors (sid lbl desc : String) (t30 t50 t100 : ℚ)
    (hs : getScenarioById sid =
      ScenarioLookup.found ⟨sid, lbl, desc, [(2030, t30), (2050, t50), (2100, t100)]⟩)
    (year : ℚ) : ∃ t, getProjectedTemp sid year = Except.ok t := by
  obtain h := getProjectedTemp_three_anchors sid lbl desc t30 t50 t100 hs year
  rcases lt_trichotomy year 2030 with h30 | h30 | h30
  · exact ⟨t30, h.2.1 h30⟩
  · exact ⟨t30, h.1 t30 (by rw [h30]; simp [lookupTemp])⟩
  rcases lt_trichotomy year 2050 with h50 | h50 | h50
  · exact ⟨_, h.2.2.2.1 h30 h50⟩
  · exact ⟨t50, h.1 t50 (by rw [h50]; norm_num [lookupTemp])⟩
  rcases lt_trichotomy year 2100 with h100 | h100 | h100
  · exact ⟨_, h.2.2.2.2 h50 h100⟩
  · exact ⟨t100, h.1 t100 (by rw [h100]; norm_num [lookupTemp])⟩
  · exact ⟨t100, h.2.2.1 h100⟩

/-- C9 counterexample: `"toString"` is not a registered scenario id, yet
`getProjectedTemp` does not fail with the unknown-scenario error there — the
prototype-chain lookup `SCENARIO_DATA["toString"] || null` yields the truthy
inherited `Object.prototype.toString`, the `if (!scenario)` guard is passed,
and the call dies with a `TypeError` instead. -/
theorem getProjectedTemp_unknownScenario_counterexample :
    ¬("toString" = "ssp126" ∨ "toString" = "ssp245" ∨ "toString" = "ssp585") ∧
    getProjectedTemp "toString" 2050 = Except.error "TypeError" ∧
    getProjectedTemp "toString" 2050
      ≠ Except.error ("Unknown scenario id: " ++ "toString") := by
  have hlook : getScenarioById "toString" = ScenarioLookup.inherited := by decide
  have heval : getProjectedTemp "toString" 2050 = Except.error "TypeError" := by
    simp [getProjectedTemp, hlook]
  refine ⟨by decide, heval, ?_⟩
  rw [heval]
  intro h
  exact absurd (Except.error.inj h) (by decide)

/-- C9 (amended): `getProjectedTemp` fails with the unknown-scenario error
exactly when the id is neither one of the three registered scenario ids nor a
property key inherited from `Object.prototype`; on an inherited key the
truthy inherited method passes the guard and the call fails with a
`TypeError` instead; and for every registered id and every year it returns a
temperature without error and without any partial or default fallback. -/
theorem getProjectedTemp_error_classification (scenarioId : String) (year : ℚ) :
    ((scenarioId = "ssp126" ∨ scenarioId = "ssp245" ∨ scenarioId = "ssp585") →
      ∃ t, getProjectedTemp scenarioId year = Except.ok t) ∧
    (¬(scenarioId = "ssp126" ∨ scenarioId = "ssp245" ∨ scenarioId = "ssp585") →
      scenarioId ∈ OBJECT_PROTOTYPE_KEYS →
      getProjectedTemp scenarioId year = Except.error "TypeError") ∧
    (¬(scenarioId = "ssp126" ∨ scenarioId = "ssp245" ∨ scenarioId = "ssp585") →
      scenarioId ∉ OBJECT_PROTOTYPE_KEYS →
      getProjectedTemp scenarioId year =
        Except.error ("Unknown scenario id: " ++ scenarioId)) := by
  refine ⟨?_, ?_, ?_⟩
  · rintro (rfl | rfl | rfl)
    · exact getProjectedTemp_total_three_anchors "ssp126" "SSP1-2.6"
        "Strong mitigation, lower warming pathway" 1.5 1.8 2.0 getScenarioById_ssp126 year
    · exact getProjectedTemp_total_three_anchors "ssp245" "SSP2-4.5"
        "Intermediate emissions pathway" 1.6 2.2 2.9 getScenarioById_ssp245 year
    · exact getProjectedTemp_total_three_anchors "ssp585" "SSP5-8.5"
        "High emissions, high warming pathway" 1.8 2.7 4.4 getScenarioById_ssp585 year
  · intro hne hmem
    push_neg at hne
    have e1 : ("ssp126" == scenarioId) = false := beq_eq_false_iff_ne.mpr (Ne.symm hne.1)
    have e2 : ("ssp245" == scenarioId) = false := beq_eq_false_iff_ne.mpr (Ne.symm hne.2.1)
    have e3 : ("ssp585" == scenarioId) = false := beq_eq_false_iff_ne.mpr (Ne.symm hne.2.2)
    have hlook : getScenarioById scenarioId = ScenarioLookup.inherited := by
      simp [getScenarioById, SCENARIO_DATA, ssp126, ssp245, ssp585, List.find?,
        e1, e2, e3, hmem]
    simp [getProjectedTemp, hlook]
  · intro hne hmem
    push_neg at hne
    have e1 : ("ssp126" == scenarioId) = false := beq_eq_false_iff_ne.mpr (Ne.symm hne.1)
    have e2 : ("ssp245" == scenarioId) = false := beq_eq_false_iff_ne.mpr (Ne.symm hne.2.1)
    have e3 : ("ssp585" == scenarioId) = false := beq_eq_false_iff_ne.mpr (Ne.symm hne.2.2)
    have hlook : getScenarioById scenarioId = ScenarioLookup.jsNull := by
      simp [getScenarioById, SCENARIO_DATA, ssp126, ssp245, ssp585, List.find?,
        e1, e2, e3, hmem]
    simp [getProjectedTemp, hlook]

/-- Witness for `getProjectedTemp_error_classification`: a registered id
resolves, an inherited `Object.prototype` key dies with a `TypeError`, and an
id that is neither errors with the unknown-scenario message. -/
theorem getProjectedTemp_error_classification_witness :
    (∃ t, getProjectedTemp "ssp245" 2040 = Except.ok t) ∧
    getProjectedTemp "toString" 2040 = Except.error "TypeError" ∧
    getProjectedTemp "zzz" 2040 = Except.error ("Unknown scenario id: " ++ "zzz") :=
  ⟨(getProjectedTemp_error_classification "ssp245" 2040).1 (Or.inr (Or.inl rfl)),
   (getProjectedTemp_error_classification "toString" 2040).2.1 (by decide) (by decide),
   (getProjectedTemp_error_classification "zzz" 2040).2.2 (by decide) (by decide)⟩

/-! ### Snapshot state machine -/

/-- C5 counterexample: in the reachable state obtained by
`setFloodLevel(1 m)` followed by `clearFlood` (current snapshot `null`,
previous snapshot the 1 m snapshot), a further `setFloodLevel(2 m)` with
recording enabled does *not* make the old current snapshot (`null`) the
previous snapshot: the 1 m snapshot survives in the previous slot, because the
demotion in the source is guarded by `if (currentSnapshot)`. -/
theorem setFloodLevel_counterexample :
    (setFloodLevel 2 ⟨0, 0, [], zeroStats, []⟩ true 3
        (clearFlood (setFloodLevel 1 ⟨0, 0, [], zeroStats, []⟩ true 1
          initialVizState))).previousSnapshot
      ≠ (clearFlood (setFloodLevel 1 ⟨0, 0, [], zeroStats, []⟩ true 1
          initialVizState)).currentSnapshot := by
  decide

/-- C5 (amended): with recording enabled and a positive sea level,
`setFloodLevel` installs the new snapshot as current; the old current — when
one exists — is demoted to previous, overwriting the older previous
(single-slot history); when no current snapshot exists, the previous slot is
left unchanged. -/
theorem setFloodLevel_snapshot_step (s : VizState) (slr : ℚ) (res : SimulationResult ℚ)
    (now : ℕ) (h : 0 < slr) :
    (setFloodLevel slr res true now s).currentSnapshot = some ⟨slr, res, now⟩ ∧
    (setFloodLevel slr res true now s).previousSnapshot =
      (match s.currentSnapshot with
       | some c => some c
       | none => s.previousSnapshot) := by
  have hns : ¬ slr ≤ 0 := not_le.mpr h
  cases hc : s.currentSnapshot <;> simp [setFloodLevel, hns, hc]

/-- Witness for `setFloodLevel_snapshot_step` from the initial state. -/
theorem setFloodLevel_snapshot_step_witness :
    (0 : ℚ) < 1 ∧
    ((setFloodLevel 1 ⟨0, 0, [], zeroStats, []⟩ true 1 initialVizState).currentSnapshot
        = some ⟨1, ⟨0, 0, [], zeroStats, []⟩, 1⟩ ∧
      (setFloodLevel 1 ⟨0, 0, [], zeroStats, []⟩ true 1 initialVizState).previousSnapshot
        = (match initialVizState.currentSnapshot with
           | some c => some c
           | none => initialVizState.previousSnapshot)) :=
  ⟨by norm_num,
   setFloodLevel_snapshot_step initialVizState 1 ⟨0, 0, [], zeroStats, []⟩ 1 (by norm_num)⟩

/-! ### The comparison band of the geoid flood shader -/

/-- C6: on a land fragment (`waterMask ≤ 0.5`) with the comparison overlay
active (`comparisonSLR > 0`), the shader outputs the fixed comparison
material — diffuse `(1, 0.3, 0.1)`, opacity `0.5` — exactly when the terrain
height lies in the half-open band
`[min(floodSurface, compSurface), max(floodSurface, compSurface))`, where
`floodSurface = g + seaLevelRise` and `compSurface = g + comparisonSLR` for
the decoded geoid undulation `g`; and when the two sea levels agree the band
is empty for every terrain height. -/
theorem comparison_band_iff (seaLevelRise comparisonSLR waterAlpha geoidMin geoidRange : ℚ)
    (tex : ℚ × ℚ → ℚ × ℚ) (dm : ℚ × ℚ × ℚ) (waterMask h stx sty : ℚ)
    (hwm : ¬ waterMask > 0.5) (hcomp : comparisonSLR > 0)
    (g : ℚ) (hg : g = shaderUndulation geoidMin geoidRange tex stx sty) :
    (floodShaderGeoid seaLevelRise comparisonSLR waterAlpha geoidMin geoidRange
        tex dm waterMask h stx sty = ⟨(1, 0.3, 0.1), 0.5⟩ ↔
      (Min.min (g + seaLevelRise) (g + comparisonSLR) ≤ h ∧
        h < Max.max (g + seaLevelRise) (g + comparisonSLR))) ∧
    (comparisonSLR = seaLevelRise →
      floodShaderGeoid seaLevelRise comparisonSLR waterAlpha geoidMin geoidRange
        tex dm waterMask h stx sty ≠ ⟨(1, 0.3, 0.1), 0.5⟩) := by
  subst hg
  simp only [floodShaderGeoid, if_neg hwm, if_pos hcomp, ge_iff_le]
  generalize shaderUndulation geoidMin geoidRange tex stx sty = u
  constructor
  · constructor
    · intro hmat
      by_cases hband : Min.min (u + seaLevelRise) (u + comparisonSLR) ≤ h ∧
          h < Max.max (u + seaLevelRise) (u + comparisonSLR)
      · exact hband
      · exfalso
        rw [if_neg hband] at hmat
        by_cases hf : (if seaLevelRise > 0 then
            1 - smoothstep (u + seaLevelRise - 0.35) (u + seaLevelRise + 0.35) h
            else 0) > 0.001
        · rw [if_pos hf] at hmat
          have hd := congrArg (fun m : CzmMaterial => m.diffuse.2.1) hmat
          norm_num at hd
        · rw [if_neg hf] at hmat
          have ha := congrArg (fun m : CzmMaterial => m.alpha) hmat
          norm_num at ha
    · intro hband
      rw [if_pos hband]
  · intro heq
    rw [heq, min_self, max_self]
    have hempty : ¬ (u + seaLevelRise ≤ h ∧ h < u + seaLevelRise) := by
      rintro ⟨ha, hb⟩
      exact absurd (lt_of_le_of_lt ha hb) (lt_irrefl _)
    rw [if_neg hempty]
    by_cases hf : (if seaLevelRise > 0 then
        1 - smoothstep (u + seaLevelRise - 0.35) (u + seaLevelRise + 0.35) h
        else 0) > 0.001
    · rw [if_pos hf]
      intro hmat
      have hd := congrArg (fun m : CzmMaterial => m.diffuse.2.1) hmat
      norm_num at hd
    · rw [if_neg hf]
      intro hmat
      have ha := congrArg (fun m : CzmMaterial => m.alpha) hmat
      norm_num at ha

/-- Witness for `comparison_band_iff` at a concrete fragment. -/
theorem comparison_band_iff_witness :
    ¬((0 : ℚ) > 0.5) ∧ ((2 : ℚ) > 0) ∧
    ((floodShaderGeoid 1 2 0.55 (-107) 193 (fun _ => (0, 0)) (0, 0, 0) 0 (-106) 0 0
        = ⟨(1, 0.3, 0.1), 0.5⟩ ↔
      (Min.min (shaderUndulation (-107) 193 (fun _ => (0, 0)) 0 0 + 1)
          (shaderUndulation (-107) 193 (fun _ => (0, 0)) 0 0 + 2) ≤ -106 ∧
        (-106 : ℚ) < Max.max (shaderUndulation (-107) 193 (fun _ => (0, 0)) 0 0 + 1)
          (shaderUndulation (-107) 193 (fun _ => (0, 0)) 0 0 + 2))) ∧
    ((2 : ℚ) = 1 →
      floodShaderGeoid 1 2 0.55 (-107) 193 (fun _ => (0, 0)) (0, 0, 0) 0 (-106) 0 0
        ≠ ⟨(1, 0.3, 0.1), 0.5⟩)) :=
  ⟨by norm_num, by norm_num,
   comparison_band_iff 1 2 0.55 (-107) 193 (fun _ => (0, 0)) (0, 0, 0) 0 (-106) 0 0
     (by norm_num) (by norm_num) _ rfl⟩

/-! ### Geoid encode/decode round trip -/

/-- C10: for an undulation in the physical range `[-107, 86]`, encoding into
the two byte channels and decoding on the shader side recovers the value to
within `193/65535` meters (about 3 mm), in exact arithmetic. -/
theorem geoid_roundtrip (v : ℚ) (hlow : -107 ≤ v) (hhigh : v ≤ 86) :
    |decodeGeoidTexel (encodeGeoid v).1 (encodeGeoid v).2 - v| ≤ 193 / 65535 := by
  have hmin : GEOID_MIN = -107 := rfl
  have hrange : GEOID_RANGE = 193 := by norm_num [GEOID_RANGE, GEOID_MAX, GEOID_MIN]
  have hn0 : 0 ≤ (v - GEOID_MIN) / GEOID_RANGE := by
    rw [hmin, hrange]
    apply div_nonneg (by linarith) (by norm_num)
  have hn1 : (v - GEOID_MIN) / GEOID_RANGE ≤ 1 := by
    rw [hmin, hrange, div_le_one (by norm_num : (0 : ℚ) < 193)]
    linarith
  have hclamp : Max.max 0 (Min.min 1 ((v - GEOID_MIN) / GEOID_RANGE))
      = (v - GEOID_MIN) / GEOID_RANGE := by
    rw [min_eq_right hn1, max_eq_right hn0]
  have hx0 : 0 ≤ (v - GEOID_MIN) / GEOID_RANGE * 65535 := by positivity
  have hx1 : (v - GEOID_MIN) / GEOID_RANGE * 65535 ≤ 65535 := by nlinarith
  have hN0 : 0 ≤ ⌊(v - GEOID_MIN) / GEOID_RANGE * 65535 + 1 / 2⌋ :=
    Int.floor_nonneg.mpr (by linarith)
  have hNu : ⌊(v - GEOID_MIN) / GEOID_RANGE * 65535 + 1 / 2⌋ < 65536 :=
    Int.floor_lt.mpr (by push_cast; linarith)
  have hub : (((⌊(v - GEOID_MIN) / GEOID_RANGE * 65535 + 1 / 2⌋ : ℤ)) : ℚ)
      ≤ (v - GEOID_MIN) / GEOID_RANGE * 65535 + 1 / 2 := Int.floor_le _
  have hlb : (v - GEOID_MIN) / GEOID_RANGE * 65535 + 1 / 2 - 1
      < (((⌊(v - GEOID_MIN) / GEOID_RANGE * 65535 + 1 / 2⌋ : ℤ)) : ℚ) :=
    Int.sub_one_lt_floor _
  have henc : encodeGeoid v =
      (((⌊(v - GEOID_MIN) / GEOID_RANGE * 65535 + 1 / 2⌋).toNat >>> 8) &&& 255,
        (⌊(v - GEOID_MIN) / GEOID_RANGE * 65535 + 1 / 2⌋).toNat &&& 255) := by
    simp only [encodeGeoid, jsRound, hclamp]
  have hcastE : (((⌊(v - GEOID_MIN) / GEOID_RANGE * 65535 + 1 / 2⌋).toNat : ℤ))
      = ⌊(v - GEOID_MIN) / GEOID_RANGE * 65535 + 1 / 2⌋ := Int.toNat_of_nonneg hN0
  have hEu : (⌊(v - GEOID_MIN) / GEOID_RANGE * 65535 + 1 / 2⌋).toNat < 65536 := by
    omega
  have hsplit :
      (((⌊(v - GEOID_MIN) / GEOID_RANGE * 65535 + 1 / 2⌋).toNat >>> 8) &&& 255) * 256 +
        ((⌊(v - GEOID_MIN) / GEOID_RANGE * 65535 + 1 / 2⌋).toNat &&& 255)
      = (⌊(v - GEOID_MIN) / GEOID_RANGE * 65535 + 1 / 2⌋).toNat := by
    have ha := Nat.and_pow_two_sub_one_eq_mod
      ((⌊(v - GEOID_MIN) / GEOID_RANGE * 65535 + 1 / 2⌋).toNat >>> 8) 8
    have hb := Nat.and_pow_two_sub_one_eq_mod
      (⌊(v - GEOID_MIN) / GEOID_RANGE * 65535 + 1 / 2⌋).toNat 8
    have hc := Nat.shiftRight_eq_div_pow
      (⌊(v - GEOID_MIN) / GEOID_RANGE * 65535 + 1 / 2⌋).toNat 8
    norm_num at ha hb
    omega
  have hdecform : ∀ hi lo : ℕ, decodeGeoidTexel hi lo
      = ((hi : ℚ) * 256 + (lo : ℚ)) * 193 / 65535 - 107 := by
    intro hi lo
    simp only [decodeGeoidTexel, GEOID_RANGE, GEOID_MAX, GEOID_MIN]
    ring
  rw [henc]
  rw [hdecform]
  have hcast : ((((⌊(v - GEOID_MIN) / GEOID_RANGE * 65535 + 1 / 2⌋).toNat >>> 8) &&& 255 : ℕ) : ℚ)
        * 256 + (((⌊(v - GEOID_MIN) / GEOID_RANGE * 65535 + 1 / 2⌋).toNat &&& 255 : ℕ) : ℚ)
      = (((⌊(v - GEOID_MIN) / GEOID_RANGE * 65535 + 1 / 2⌋ : ℤ)) : ℚ) := by
    rw [show (((⌊(v - GEOID_MIN) / GEOID_RANGE * 65535 + 1 / 2⌋ : ℤ)) : ℚ)
        = (((⌊(v - GEOID_MIN) / GEOID_RANGE * 65535 + 1 / 2⌋).toNat : ℚ)) by
      exact_mod_cast (congrArg (fun z : ℤ => (z : ℚ)) hcastE).symm]
    exact_mod_cast congrArg (fun n : ℕ => (n : ℚ)) hsplit
  rw [hcast]
  have hveq : v = (v - GEOID_MIN) / GEOID_RANGE * 193 - 107 := by
    rw [hmin, hrange]
    field_simp
  rw [abs_le]
  constructor
  · nlinarith
  · nlinarith

/-- Witness for `geoid_roundtrip` at `v = 0`. -/
theorem geoid_roundtrip_witness :
    ((-107 : ℚ) ≤ 0 ∧ (0 : ℚ) ≤ 86) ∧
    |decodeGeoidTexel (encodeGeoid 0).1 (encodeGeoid 0).2 - 0| ≤ 193 / 65535 :=
  ⟨⟨by norm_num, by norm_num⟩, geoid_roundtrip 0 (by norm_num) (by norm_num)⟩

/-! ### Structure of the Monte Carlo loop -/

/-- Unrolling `singleIteration` over the five contributors: the breakdown
lists the five draws in `CONTRIBUTORS` order, the total is their sum
(accumulated left to right from `0`), and ten uniform draws are consumed. -/
theorem singleIteration_eq (M : JsMath K) (t : K) (rand : ℕ → K) (i : ℕ) :
    singleIteration M t rand i =
      ((0 + contributorDraw M t ⟨"Thermal Expansion", 0.12, 0.04, 1.0⟩ rand i
          + contributorDraw M t ⟨"Mountain Glaciers", 0.10, 0.03, 0.9⟩ rand (i + 2)
          + contributorDraw M t ⟨"Greenland Ice Sheet", 0.06, 0.04, 1.4⟩ rand (i + 4)
          + contributorDraw M t ⟨"Antarctic Ice Sheet", 0.05, 0.08, 1.8⟩ rand (i + 6)
          + contributorDraw M t ⟨"Land Water Storage", 0.01, 0.01, 1.0⟩ rand (i + 8),
        [("thermalExpansion",
            contributorDraw M t ⟨"Thermal Expansion", 0.12, 0.04, 1.0⟩ rand i),
         ("glaciers",
            contributorDraw M t ⟨"Mountain Glaciers", 0.10, 0.03, 0.9⟩ rand (i + 2)),
         ("greenland",
            contributorDraw M t ⟨"Greenland Ice Sheet", 0.06, 0.04, 1.4⟩ rand (i + 4)),
         ("antarctic",
            contributorDraw M t ⟨"Antarctic Ice Sheet", 0.05, 0.08, 1.8⟩ rand (i + 6)),
         ("landWater",
            contributorDraw M t ⟨"Land Water Storage", 0.01, 0.01, 1.0⟩ rand (i + 8))]),
       i + 10) := rfl

/-- Existential form of `singleIteration_eq`. -/
theorem singleIteration_shape (M : JsMath K) (t : K) (rand : ℕ → K) (i : ℕ) :
    ∃ v0 v1 v2 v3 v4 : K,
      singleIteration M t rand i =
        ((0 + v0 + v1 + v2 + v3 + v4,
          [("thermalExpansion", v0), ("glaciers", v1), ("greenland", v2),
           ("antarctic", v3), ("landWater", v4)]), i + 10) :=
  ⟨_, _, _, _, _, singleIteration_eq M t rand i⟩

/-- Invariant of the Monte Carlo loop after `n` iterations: the contributor
accumulator holds the five keys in order, every sequence (totals and
per-contributor) has length `n`, `10·n` uniform draws were consumed, and the
five per-contributor sums add up to the sum of the totals. -/
theorem simulationLoop_shape (M : JsMath K) (t : K) (rand : ℕ → K) (n : ℕ) :
    ∃ (res l0 l1 l2 l3 l4 : List K),
      simulationLoop M t rand n =
        (res, [("thermalExpansion", l0), ("glaciers", l1), ("greenland", l2),
               ("antarctic", l3), ("landWater", l4)], 10 * n) ∧
      res.length = n ∧ l0.length = n ∧ l1.length = n ∧ l2.length = n ∧
      l3.length = n ∧ l4.length = n ∧
      l0.sum + l1.sum + l2.sum + l3.sum + l4.sum = res.sum := by
  induction n with
  | zero =>
    refine ⟨[], [], [], [], [], [], ?_, rfl, rfl, rfl, rfl, rfl, rfl, by simp⟩
    simp [simulationLoop, CONTRIBUTORS]
  | succ n ih =>
    obtain ⟨res, l0, l1, l2, l3, l4, heq, hr, h0, h1, h2, h3, h4, hsum⟩ := ih
    obtain ⟨v0, v1, v2, v3, v4, hstep⟩ := singleIteration_shape M t rand (10 * n)
    refine ⟨res ++ [0 + v0 + v1 + v2 + v3 + v4], l0 ++ [v0], l1 ++ [v1], l2 ++ [v2],
      l3 ++ [v3], l4 ++ [v4], ?_, ?_, ?_, ?_, ?_, ?_, ?_, ?_⟩
    · simp only [simulationLoop]
      rw [heq]
      simp only []
      rw [hstep]
      simp [pushValue]
      omega
    · simp [hr]
    · simp [h0]
    · simp [h1]
    · simp [h2]
    · simp [h3]
    · simp [h4]
    · simp only [List.sum_append, List.sum_cons, List.sum_nil]
      linear_combination hsum

/-! ### Percentile ordering (C7) -/

/-- For a non-empty ascending-sorted list, the `computeStats` summary is
ordered: `min ≤ p5 ≤ median ≤ p95 ≤ max`. -/
theorem computeStats_sorted_chain (l : List K) (hne : l ≠ [])
    (hs : l.Sorted (· ≤ ·)) : statChain (computeStats l) := by
  have hn : 0 < l.length := List.length_pos.mpr hne
  have hb5 : l.length * 5 / 100 < l.length := by omega
  have hb50 : l.length / 2 < l.length := by omega
  have hb95 : l.length * 95 / 100 < l.length := by omega
  have hblast : l.length - 1 < l.length := by omega
  have mono : ∀ i j (hi : i < l.length) (hj : j < l.length), i ≤ j → l[i] ≤ l[j] := by
    intro i j hi hj hij
    have h2 := hs.rel_get_of_le (Fin.mk_le_mk.mpr hij : (⟨i, hi⟩ : Fin l.length) ≤ ⟨j, hj⟩)
    simpa using h2
  simp only [statChain, computeStats, medianIdx, p5Idx, p95Idx]
  refine ⟨?_, ?_, ?_, ?_⟩
  · rw [List.getD_eq_getElem l 0 hn, List.getD_eq_getElem l 0 hb5]
    exact mono _ _ hn hb5 (by omega)
  · rw [List.getD_eq_getElem l 0 hb5, List.getD_eq_getElem l 0 hb50]
    exact mono _ _ hb5 hb50 (by omega)
  · rw [List.getD_eq_getElem l 0 hb50, List.getD_eq_getElem l 0 hb95]
    exact mono _ _ hb50 hb95 (by omega)
  · rw [List.getD_eq_getElem l 0 hb95, List.getD_eq_getElem l 0 hblast]
    exact mono _ _ hb95 hblast (by omega)

/-- The summary of any non-empty sample, after the `sort((a, b) => a - b)`
step, is ordered. -/
theorem computeStats_jsSortAsc_chain (l : List K) (hne : l ≠ []) :
    statChain (computeStats (jsSortAsc l)) := by
  apply computeStats_sorted_chain
  · have hlen : (jsSortAsc l).length = l.length :=
      (List.perm_insertionSort (· ≤ ·) l).length_eq
    intro hnil
    apply hne
    rw [hnil] at hlen
    exact List.length_eq_zero.mp hlen.symm
  · exact List.sorted_insertionSort (· ≤ ·) l

/-- C7: every `StatSummary` a simulation run produces from a non-empty sample
— the sorted totals and each of the five sorted per-contributor sequences —
satisfies `min ≤ p5 ≤ median ≤ p95 ≤ max`. -/
theorem runSimulation_stat_chain (M : JsMath K) (temp : K) (iters : ℕ) (rand : ℕ → K)
    (hiters : 1 ≤ iters) (htemp : 0 < temp) :
    statChain (runSimulation M temp iters rand).1.stats ∧
    ∀ e ∈ (runSimulation M temp iters rand).1.contributorStats,
      statChain e.2.stats := by
  have hns : ¬ temp ≤ 0 := not_le.mpr htemp
  obtain ⟨res, l0, l1, l2, l3, l4, heq, hr, h0, h1, h2, h3, h4, hsum⟩ :=
    simulationLoop_shape M temp rand iters
  have hres : res ≠ [] := by
    intro hnil
    rw [hnil] at hr
    simp at hr
    omega
  have hl0 : l0 ≠ [] := by intro hnil; rw [hnil] at h0; simp at h0; omega
  have hl1 : l1 ≠ [] := by intro hnil; rw [hnil] at h1; simp at h1; omega
  have hl2 : l2 ≠ [] := by intro hnil; rw [hnil] at h2; simp at h2; omega
  have hl3 : l3 ≠ [] := by intro hnil; rw [hnil] at h3; simp at h3; omega
  have hl4 : l4 ≠ [] := by intro hnil; rw [hnil] at h4; simp at h4; omega
  simp only [runSimulation, if_neg hns, heq, List.map_cons, List.map_nil]
  constructor
  · exact computeStats_jsSortAsc_chain res hres
  · intro e he
    simp only [List.mem_cons, List.not_mem_nil, or_false] at he
    rcases he with rfl | rfl | rfl | rfl | rfl
    · exact computeStats_jsSortAsc_chain l0 hl0
    · exact computeStats_jsSortAsc_chain l1 hl1
    · exact computeStats_jsSortAsc_chain l2 hl2
    · exact computeStats_jsSortAsc_chain l3 hl3
    · exact computeStats_jsSortAsc_chain l4 hl4

/-- Witness for `runSimulation_stat_chain` at a one-iteration run over `ℚ`. -/
theorem runSimulation_stat_chain_witness :
    (1 ≤ 1 ∧ (0 : ℚ) < 1) ∧
    (statChain (runSimulation qOracle 1 1 (fun _ => 0)).1.stats ∧
      ∀ e ∈ (runSimulation qOracle 1 1 (fun _ => 0)).1.contributorStats,
        statChain e.2.stats) :=
  ⟨⟨le_refl 1, by norm_num⟩,
   runSimulation_stat_chain qOracle 1 1 (fun _ => 0) (le_refl 1) (by norm_num)⟩

/-! ### Additivity of the means (C8) -/

/-- The mean reported by `computeStats` after sorting is the sum of the raw
sample divided by its length. -/
theorem computeStats_jsSortAsc_mean (l : List K) :
    (computeStats (jsSortAsc l)).mean = l.sum / (l.length : K) := by
  simp only [computeStats]
  rw [← List.sum_eq_foldl, show (jsSortAsc l).sum = l.sum from
      (List.perm_insertionSort (· ≤ ·) l).sum_eq,
    show (jsSortAsc l).length = l.length from
      (List.perm_insertionSort (· ≤ ·) l).length_eq]

/-- C8: for a run with at least one iteration and positive temperature, the
five per-contributor means add up exactly to the mean of the totals, because
every iteration's total is the sum of its five clamped contributor values. -/
theorem runSimulation_mean_additive (M : JsMath K) (temp : K) (iters : ℕ)
    (rand : ℕ → K) (hiters : 1 ≤ iters) (htemp : 0 < temp) :
    ((runSimulation M temp iters rand).1.contributorStats.map
        (fun e => e.2.stats.mean)).sum
      = (runSimulation M temp iters rand).1.stats.mean := by
  have hns : ¬ temp ≤ 0 := not_le.mpr htemp
  obtain ⟨res, l0, l1, l2, l3, l4, heq, hr, h0, h1, h2, h3, h4, hsum⟩ :=
    simulationLoop_shape M temp rand iters
  simp only [runSimulation, if_neg hns, heq, List.map_cons, List.map_nil,
    List.sum_cons, List.sum_nil]
  rw [computeStats_jsSortAsc_mean, computeStats_jsSortAsc_mean,
    computeStats_jsSortAsc_mean, computeStats_jsSortAsc_mean,
    computeStats_jsSortAsc_mean, computeStats_jsSortAsc_mean]
  rw [hr, h0, h1, h2, h3, h4, ← hsum]
  ring

/-- Witness for `runSimulation_mean_additive` at a one-iteration run. -/
theorem runSimulation_mean_additive_witness :
    (1 ≤ 1 ∧ (0 : ℚ) < 1) ∧
    ((runSimulation qOracle 1 1 (fun _ => 0)).1.contributorStats.map
        (fun e => e.2.stats.mean)).sum
      = (runSimulation qOracle 1 1 (fun _ => 0)).1.stats.mean :=
  ⟨⟨le_refl 1, by norm_num⟩,
   runSimulation_mean_additive qOracle 1 1 (fun _ => 0) (le_refl 1) (by norm_num)⟩

/-! ### The zero-temperature branch (C2) -/

/-- C2 counterexample: in the zero-temperature result, `contributorStats` is
the *empty* mapping, so it does not hold an all-zero `StatSummary` for every
one of the five contributors (here: no entry at all for `"glaciers"`). -/
theorem runSimulation_zero_contributors_counterexample :
    ¬ (∀ key ∈ (CONTRIBUTORS ℚ).map Prod.fst,
        (((runSimulation qOracle 0 1000 fun _ => 0).1.contributorStats.find?
          fun e => e.1 == key).isSome) = true) := by
  decide

/-- C2 (amended): for `tempIncrease ≤ 0`, `runSimulation` returns
`tempIncrease = 0`, `iterations = 0`, an empty sample, the all-zero total
`StatSummary`, and an *empty* `contributorStats` mapping, consuming no
`Math.random()` draws — independent of the requested iteration count and of
the random stream. -/
theorem runSimulation_zero_case (M : JsMath K) (temp : K) (iters : ℕ)
    (rand : ℕ → K) (h : temp ≤ 0) :
    runSimulation M temp iters rand = (⟨0, 0, [], zeroStats, []⟩, 0) := by
  simp only [runSimulation, if_pos h]

/-- Witness for `runSimulation_zero_case` at `temp = 0`. -/
theorem runSimulation_zero_case_witness :
    (0 : ℚ) ≤ 0 ∧
    runSimulation qOracle 0 1000 (fun _ => 0) = (⟨0, 0, [], zeroStats, []⟩, 0) :=
  ⟨le_refl 0, runSimulation_zero_case qOracle 0 1000 (fun _ => 0) (le_refl 0)⟩

/-- Under `streamA`, the Box–Muller cosine factor is `cos(π/2) = 0`, so every
contributor draw collapses to its (non-negative) mean. -/
theorem contributorDraw_streamA (c : Contributor ℝ) (k : ℕ) (hk : k % 2 = 0)
    (hm : 0 ≤ c.meanPerDeg) : contributorDraw realMath 1 c streamA k = c.meanPerDeg := by
  have hu1 : streamA k = 1 / 2 := by simp [streamA, hk]
  have hk1 : (k + 1) % 2 = 1 := by omega
  have hu2 : streamA (k + 1) = 1 / 4 := by simp [streamA, hk1]
  simp only [contributorDraw, realMath, hu1, hu2]
  rw [show (2 : ℝ) * Real.pi * (1 / 4) = Real.pi / 2 by ring, Real.cos_pi_div_two]
  rw [Real.one_rpow, Real.sqrt_one]
  simp [clampPositive, max_eq_right hm]

/-- Under `streamB`, the Box–Muller variate is `sqrt(16)·cos(π) = -4`, so a
contributor whose mean is at most four standard deviations is clamped to 0. -/
theorem contributorDraw_streamB (c : Contributor ℝ) (k : ℕ) (hk : k % 2 = 0)
    (hm : c.meanPerDeg - 4 * c.stdPerDeg ≤ 0) :
    contributorDraw realMath 1 c streamB k = 0 := by
  have hu1 : streamB k = Real.exp (-8) := by simp [streamB, hk]
  have hk1 : (k + 1) % 2 = 1 := by omega
  have hu2 : streamB (k + 1) = 1 / 2 := by simp [streamB, hk1]
  simp only [contributorDraw, realMath, hu1, hu2]
  rw [Real.log_exp, show (-2 : ℝ) * -8 = 4 ^ 2 by norm_num,
    Real.sqrt_sq (by norm_num : (0 : ℝ) ≤ 4),
    show (2 : ℝ) * Real.pi * (1 / 2) = Real.pi by ring, Real.cos_pi]
  rw [Real.one_rpow, Real.sqrt_one]
  simp [clampPositive]
  linarith
/-- One iteration under `streamA` produces the single total `0.34`. -/
theorem simulationLoop_streamA :
    (simulationLoop realMath (1 : ℝ) streamA 1).1
      = [(0.12 : ℝ) + 0.1 + 0.06 + 0.05 + 0.01] := by
  have e0 := contributorDraw_streamA ⟨"Thermal Expansion", 0.12, 0.04, 1.0⟩ 0
    (by norm_num) (by norm_num)
  have e2 := contributorDraw_streamA ⟨"Mountain Glaciers", 0.10, 0.03, 0.9⟩ 2
    (by norm_num) (by norm_num)
  have e4 := contributorDraw_streamA ⟨"Greenland Ice Sheet", 0.06, 0.04, 1.4⟩ 4
    (by norm_num) (by norm_num)
  have e6 := contributorDraw_streamA ⟨"Antarctic Ice Sheet", 0.05, 0.08, 1.8⟩ 6
    (by norm_num) (by norm_num)
  have e8 := contributorDraw_streamA ⟨"Land Water Storage", 0.01, 0.01, 1.0⟩ 8
    (by norm_num) (by norm_num)
  simp [simulationLoop, singleIteration_eq, e0, e2, e4, e6, e8]
  norm_num
/-- One iteration under `streamB` produces the single total `0`. -/
theorem simulationLoop_streamB :
    (simulationLoop realMath (1 : ℝ) streamB 1).1 = [(0 : ℝ)] := by
  have e0 := contributorDraw_streamB ⟨"Thermal Expansion", 0.12, 0.04, 1.0⟩ 0
    (by norm_num) (by norm_num)
  have e2 := contributorDraw_streamB ⟨"Mountain Glaciers", 0.10, 0.03, 0.9⟩ 2
    (by norm_num) (by norm_num)
  have e4 := contributorDraw_streamB ⟨"Greenland Ice Sheet", 0.06, 0.04, 1.4⟩ 4
    (by norm_num) (by norm_num)
  have e6 := contributorDraw_streamB ⟨"Antarctic Ice Sheet", 0.05, 0.08, 1.8⟩ 6
    (by norm_num) (by norm_num)
  have e8 := contributorDraw_streamB ⟨"Land Water Storage", 0.01, 0.01, 1.0⟩ 8
    (by norm_num) (by norm_num)
  simp [simulationLoop, singleIteration_eq, e0, e2, e4, e6, e8]

/-- The reported mean of the `streamA` run. -/
theorem runSimulation_mean_streamA :
    (runSimulation realMath 1 1 streamA).1.stats.mean = (0.34 : ℝ) := by
  have hns : ¬ (1 : ℝ) ≤ 0 := by norm_num
  simp only [runSimulation, if_neg hns]
  rw [simulationLoop_streamA]
  rw [show jsSortAsc [(0.12 : ℝ) + 0.1 + 0.06 + 0.05 + 0.01]
      = [(0.12 : ℝ) + 0.1 + 0.06 + 0.05 + 0.01] from rfl]
  simp [computeStats]
  norm_num

/-- The reported mean of the `streamB` run. -/
theorem runSimulation_mean_streamB :
    (runSimulation realMath 1 1 streamB).1.stats.mean = (0 : ℝ) := by
  have hns : ¬ (1 : ℝ) ≤ 0 := by norm_num
  simp only [runSimulation, if_neg hns]
  rw [simulationLoop_streamB]
  rw [show jsSortAsc [(0 : ℝ)] = [(0 : ℝ)] from rfl]
  simp [computeStats]
/-- C1 (divergence witness): `runSimulation` has no seed parameter at all —
its output is a function of the `Math.random()` oracle stream alone.  Two
valid `Math.random()` streams (all values in `[0,1)`) with the same
temperature and iteration count yield different stats, so no choice of seed
can make two invocations bit-identical: the seeded-determinism the spec
promises does not exist in this code. -/
theorem runSimulation_stream_sensitive :
    (∀ n, streamA n ∈ Set.Ico (0 : ℝ) 1) ∧
    (∀ n, streamB n ∈ Set.Ico (0 : ℝ) 1) ∧
    (runSimulation realMath 1 1 streamA).1.stats.mean
      ≠ (runSimulation realMath 1 1 streamB).1.stats.mean := by
  refine ⟨?_, ?_, ?_⟩
  · intro n
    by_cases h : n % 2 = 0 <;> simp [streamA, h, Set.mem_Ico] <;> norm_num
  · intro n
    by_cases h : n % 2 = 0 <;> simp [streamB, h, Set.mem_Ico]
    · exact le_of_lt (Real.exp_pos _)
    · norm_num
  · rw [runSimulation_mean_streamA, runSimulation_mean_streamB]
    norm_num
end WaterLevels
